import Mathlib

/-!
# Verification of the grid-world engine

A shallow embedding of the tile/grid/entity/interaction core of the
grid-world game, together with proofs of the behavioural properties stated
in its specification.  JavaScript numbers that hold grid coordinates and
sizes are modelled as `Int`; JavaScript strings as `String`; open key→value
property maps as association lists with unique keys (`Props`); absent values
(`undefined`/`null`) as `Option`.  Methods that mutate an object are
modelled as functions returning the updated value.
-/

/-- A JavaScript value stored in a property map (string, number or boolean). -/
inductive Value where
  | vStr (s : String)
  | vInt (n : Int)
  | vBool (b : Bool)
deriving DecidableEq, Repr

/-- An open key→value property map, as built by JS object literals.
Keys are unique because maps are only built with `objInsert`. -/
abbrev Props : Type := List (String × Value)

/-- The empty object `{}`. -/
def emptyProps : Props := []

/-- Assign `obj[k] = v`: replace the binding when the key is present,
append it otherwise (JS object-literal semantics, later keys override). -/
def objInsert (p : Props) (k : String) (v : Value) : Props :=
  if p.any (fun kv => kv.1 == k) then
    p.map (fun kv => if kv.1 == k then (k, v) else kv)
  else
    p ++ [(k, v)]

/-- JS spread `{...base, ...ext}`: fold the extension into the base. -/
def objExtend (base ext : Props) : Props :=
  ext.foldl (fun acc kv => objInsert acc kv.1 kv.2) base

/-- Key lookup `obj[k]` (maps have unique keys, so first match is the match). -/
def propLookup (p : Props) (k : String) : Option Value :=
  (p.find? (fun kv => kv.1 == k)).map (fun kv => kv.2)

/-- JS truthiness of a property value (`''`, `0` and `false` are falsy). -/
def valueTruthy : Value → Bool
  | .vStr s => s ≠ ""
  | .vInt n => n ≠ 0
  | .vBool b => b

/-- `s || d` on JS strings: the empty string is falsy. -/
def jsOrStr (s d : String) : String := if s = "" then d else s

/-- `n || d` on JS integers: `0` is falsy. -/
def jsOrInt (n d : Int) : Int := if n = 0 then d else n

/-! ## Tile (src/js/world/tile.js) -/

/-- One grid cell: coordinates, type identifier, property map, tag set and
display color (`color` keeps the raw JS value `properties.color || default`). -/
structure Tile where
  x : Int
  y : Int
  type : String
  properties : Props
  tags : List String
  color : Value
deriving DecidableEq, Repr

/-- The argument object of `new Tile(config)`; omitted fields default as in
the constructor (`config.x || 0`, `config.type || 'grass'`, `{}`, `[]`). -/
structure TileConfig where
  x : Int := 0
  y : Int := 0
  type : String := ""
  properties : Props := []
  tags : List String := []

/-- `this.color = this.properties.color || dflt` in `setDefaultPropertiesByType`. -/
def tileColor (properties : Props) (dflt : String) : Value :=
  match propLookup properties "color" with
  | some v => if valueTruthy v then v else Value.vStr dflt
  | none => Value.vStr dflt

/-- The `Tile` constructor followed by `setDefaultPropertiesByType`:
derives the tag set and color from the type identifier, concatenating the
type's default tags onto any tags supplied in the config. -/
def mkTile (c : TileConfig) : Tile :=
  let ty := jsOrStr c.type "grass"
  if ty = "grass" then
    ⟨c.x, c.y, ty, c.properties, c.tags ++ ["passable", "natural"], tileColor c.properties "#7CFC00"⟩
  else if ty = "forest" then
    ⟨c.x, c.y, ty, c.properties, c.tags ++ ["passable", "natural", "slow"], tileColor c.properties "#228B22"⟩
  else if ty = "water" then
    ⟨c.x, c.y, ty, c.properties, c.tags ++ ["blocking", "natural", "water"], tileColor c.properties "#1E90FF"⟩
  else if ty = "rock" then
    ⟨c.x, c.y, ty, c.properties, c.tags ++ ["blocking", "natural"], tileColor c.properties "#A9A9A9"⟩
  else if ty = "teleporter" then
    ⟨c.x, c.y, ty, c.properties, c.tags ++ ["passable", "teleporter"], tileColor c.properties "#800080"⟩
  else
    ⟨c.x, c.y, ty, c.properties, c.tags, tileColor c.properties "#FFFFFF"⟩

/-- `Tile.hasTag` / `Helpers.hasTag` applied to a tile. -/
def tileHasTag (t : Tile) (tag : String) : Bool := t.tags.contains tag

/-! ## Grid (src/unnamed/part_002) -/

/-- The grid: dimensions, tile size, default tile type and the dense
`tiles[y][x]` matrix.  The back-reference to the owning scene is omitted
(it is never read by any grid method). -/
structure Grid where
  width : Int
  height : Int
  tileSize : Int
  defaultTileType : String
  tiles : List (List Tile)
deriving DecidableEq, Repr

/-- The all-default tile matrix built by `Grid.reset`'s nested loops. -/
def defaultTiles (w h : Int) (dt : String) : List (List Tile) :=
  (List.range h.toNat).map (fun (y : Nat) =>
    (List.range w.toNat).map (fun (x : Nat) =>
      mkTile { x := (x : Int), y := (y : Int), type := dt }))

/-- `Grid.reset`: reinitialise every cell with the default tile type. -/
def Grid.reset (g : Grid) : Grid :=
  { g with tiles := defaultTiles g.width g.height g.defaultTileType }

/-- `Grid.isInBounds(x, y)`. -/
def Grid.isInBounds (g : Grid) (x y : Int) : Bool :=
  decide (0 ≤ x) && decide (x < g.width) && decide (0 ≤ y) && decide (y < g.height)

/-- `Grid.getTileAt(x, y)`: `null` out of bounds, else `this.tiles[y][x]`. -/
def Grid.getTileAt (g : Grid) (x y : Int) : Option Tile :=
  if g.isInBounds x y then
    (g.tiles[y.toNat]?).bind (fun row => row[x.toNat]?)
  else
    none

/-- `Grid.setTileAt(x, y, tile)`: bounds-checked in-place write
`this.tiles[y][x] = tile`, returning the success flag. -/
def Grid.setTileAt (g : Grid) (x y : Int) (tile : Tile) : Grid × Bool :=
  if g.isInBounds x y then
    match g.tiles[y.toNat]? with
    | some row => ({ g with tiles := g.tiles.set y.toNat (row.set x.toNat tile) }, true)
    | none => (g, true)
  else
    (g, false)

/-- `Grid.worldToGrid`: `Math.floor(world / tileSize)` componentwise
(floor division of integers; world coordinates are modelled integral). -/
def Grid.worldToGrid (g : Grid) (worldX worldY : Int) : Int × Int :=
  (Int.fdiv worldX g.tileSize, Int.fdiv worldY g.tileSize)

/-- `Grid.gridToWorld`: multiply componentwise by the tile size. -/
def Grid.gridToWorld (g : Grid) (gridX gridY : Int) : Int × Int :=
  (gridX * g.tileSize, gridY * g.tileSize)

/-- One entry of `data.tiles` in `Grid.loadFromData`. -/
structure TileData where
  x : Option Int := none
  y : Option Int := none
  type : Option String := none
  properties : Option Props := none

/-- The argument of `Grid.loadFromData`. -/
structure GridData where
  width : Option Int := none
  height : Option Int := none
  defaultTile : Option String := none
  tiles : Option (List TileData) := none

/-- The resize test in `loadFromData`:
`this.tiles.length !== this.height || (this.tiles[0] && this.tiles[0].length !== this.width)`. -/
def Grid.resizeNeeded (g : Grid) : Bool :=
  ((g.tiles.length : Int) != g.height) ||
    (match g.tiles.head? with
     | some row => ((row.length : Int) != g.width)
     | none => false)

/-- One iteration of the `data.tiles.forEach(...)` override loop of
`loadFromData`: an entry with `x`, `y` and `type` all present is written
with `setTileAt`; malformed entries are skipped. -/
def Grid.applyTileDatum (g : Grid) (td : TileData) : Grid :=
  match td.x, td.y, td.type with
  | some x, some y, some ty =>
      (g.setTileAt x y (mkTile { x := x, y := y, type := ty, properties := td.properties.getD [] })).1
  | _, _, _ => g

/-- The full override loop. -/
def Grid.applyTileData (g : Grid) (tds : List TileData) : Grid :=
  tds.foldl Grid.applyTileDatum g

/-- `data.tiles` guard plus the override loop. -/
def Grid.applyTileDataOpt (g : Grid) (o : Option (List TileData)) : Grid :=
  match o with
  | none => g
  | some tds => g.applyTileData tds

/-- `Grid.loadFromData(data)`: reset, adopt new dimensions/default type,
reset again when the matrix no longer matches the dimensions, then apply
the explicit tile overrides. -/
def Grid.loadFromData (g : Grid) (d : GridData) : Grid :=
  let g1 := g.reset
  let g2 := { g1 with
    width := d.width.getD g1.width,
    height := d.height.getD g1.height,
    defaultTileType := d.defaultTile.getD g1.defaultTileType }
  let g3 := if g2.resizeNeeded then g2.reset else g2
  g3.applyTileDataOpt d.tiles

/-- Well-formedness of the tile matrix: `height × width` dense, as
established by `reset` (the invariant of §3 of the spec). -/
def Grid.WF (g : Grid) : Prop :=
  g.tiles.length = g.height.toNat ∧ ∀ row ∈ g.tiles, row.length = g.width.toNat

/-- A freshly constructed grid (constructor runs `reset`). -/
def mkDefaultGrid (w h ts : Int) (dt : String) : Grid :=
  ⟨w, h, ts, dt, defaultTiles w h dt⟩

/-! ## Entity hierarchy (src/js/entities/item.js, src/unnamed/part_007, src/unnamed/part_008) -/

/-- The integral grid position `this.position`. -/
structure Pos where
  x : Int
  y : Int
deriving DecidableEq, Repr

/-- `Object.values(CONSTANTS.DIRECTIONS)` in declaration order. -/
def directionValues : List String := ["north", "east", "south", "west"]

/-- An item's `useEffect` descriptor. -/
structure UseEffect where
  type : String
  amount : Option Int := none
  targetZone : Option String := none
  targetX : Option Int := none
  targetY : Option Int := none
  content : Option String := none
  speaker : Option String := none
  waitForInput : Option Bool := none
deriving DecidableEq, Repr

/-- An NPC's `dialog` field: a plain string or a `{text, speaker}` object. -/
inductive NpcDialog where
  | str (s : String)
  | obj (text : Option String) (speaker : Option String)
deriving DecidableEq, Repr

/-- The concrete JS class of an entity, deciding which `onInteract`
override runs (`base` covers plain `Entity` and the furniture fallback). -/
inductive EKind where
  | player
  | npc
  | item
  | base
deriving DecidableEq, Repr

/-- An entity: the fields of the `Entity` base class plus the variant
fields of `Item` (pickupable/quantity/...) and `NPC` (dialog); fields of a
variant an entity does not belong to are never read.  A `Player`'s
inventory lives in `PlayerEnt` below, mirroring that only the player
object carries one.  Presentation-only fields (color, shape, size) are
omitted; they are never read by the core. -/
structure Ent where
  id : String
  type : String
  displayName : String
  position : Pos
  direction : String
  tags : List String
  interactable : Bool
  interactionDirections : List String
  properties : Props
  kind : EKind
  pickupable : Bool := true
  stackable : Bool := true
  quantity : Int := 1
  dialogOnPickup : Option String := none
  useEffect : Option UseEffect := none
  dialog : Option NpcDialog := none
  health : Option Int := none
  maxHealth : Option Int := none
deriving DecidableEq, Repr

/-- The `Player` object: the entity fields plus the ordered inventory. -/
structure PlayerEnt where
  ent : Ent
  inventory : List Ent
deriving DecidableEq, Repr

/-- `Helpers.hasTag(entity, tag)`. -/
def entHasTag (e : Ent) (tag : String) : Bool := e.tags.contains tag

/-- `Helpers.hasAllTags(entity, requiredTags)`.  `entity` and its `tags`
array are always present in the model; an empty `requiredTags` array is
truthy in JS, so the guard falls through to `every`, which is vacuously
true. -/
def hasAllTags (e : Ent) (requiredTags : List String) : Bool :=
  requiredTags.all (fun tag => e.tags.contains tag)

/-- `Helpers.getPositionInFront(entity)`: one step along the facing
direction; an unrecognised direction leaves the position unchanged. -/
def getPositionInFront (e : Ent) : Pos :=
  let p := e.position
  if e.direction = "north" then ⟨p.x, p.y - 1⟩
  else if e.direction = "east" then ⟨p.x + 1, p.y⟩
  else if e.direction = "south" then ⟨p.x, p.y + 1⟩
  else if e.direction = "west" then ⟨p.x - 1, p.y⟩
  else p

/-- `Player.getOppositeDirection(direction)` (identity on unknown input). -/
def getOppositeDirection (d : String) : String :=
  if d = "north" then "south"
  else if d = "east" then "west"
  else if d = "south" then "north"
  else if d = "west" then "east"
  else d

/-! ## Movement (Entity methods of src/js/entities/item.js, scene lookup of
src/js/scenes/gameScene.js) -/

/-- The part of the scene that entity movement reads: the active grid and
the scene's entity collection (`GameScene.entities`, insertion order). -/
structure MoveScene where
  grid : Grid
  entities : List Ent
deriving Repr

/-- `GameScene.getEntityAt(x, y)`: first entity in insertion order whose
position equals `(x, y)`, or `null`. -/
def getEntityAt (s : MoveScene) (x y : Int) : Option Ent :=
  s.entities.find? (fun e => e.position.x == x && e.position.y == y)

/-- `Entity.canPassTile(tile)`: the default policy, "tile tags include
passable" (the entity argument is the overridable receiver, unused by the
base implementation). -/
def canPassTile (_e : Ent) (tile : Tile) : Bool :=
  tileHasTag tile "passable"

/-- `Entity.canMoveTo(x, y)`: bounds, then tile passability, then the
blocking-entity check on `scene.getEntityAt(x, y)`. -/
def canMoveTo (s : MoveScene) (e : Ent) (x y : Int) : Bool :=
  if !(s.grid.isInBounds x y) then false
  else
    match s.grid.getTileAt x y with
    | none => false
    | some tile =>
      if !(canPassTile e tile) then false
      else
        match getEntityAt s x y with
        | some blockingEntity =>
            if entHasTag blockingEntity "blocking" then false else true
        | none => true

/-- `Entity.moveTo(x, y)`: validate with `canMoveTo`; on success update
both coordinates, on failure change nothing.  Returns the updated entity
and the success flag. -/
def moveTo (s : MoveScene) (e : Ent) (x y : Int) : Ent × Bool :=
  if canMoveTo s e x y then ({ e with position := ⟨x, y⟩ }, true)
  else (e, false)

/-- `Entity.setDirection(direction)`: accept only a recognised direction. -/
def setDirection (e : Ent) (d : String) : Ent :=
  if directionValues.contains d then { e with direction := d } else e

/-- `Entity.moveInDirection(direction)`: set facing, compute the one-step
target with the direction switch (no delta on an unrecognised direction),
then delegate to `moveTo`. -/
def moveInDirection (s : MoveScene) (e : Ent) (d : String) : Ent × Bool :=
  let e1 := setDirection e d
  let newX := e.position.x
  let newY := e.position.y
  let target : Int × Int :=
    if d = "north" then (newX, newY - 1)
    else if d = "east" then (newX + 1, newY)
    else if d = "south" then (newX, newY + 1)
    else if d = "west" then (newX - 1, newY)
    else (newX, newY)
  moveTo s e1 target.1 target.2

/-- `Entity.canInteractFrom(direction)`. -/
def canInteractFrom (e : Ent) (d : String) : Bool :=
  if !e.interactable then false else e.interactionDirections.contains d

/-! ## Interaction (src/js/interactions/interaction.js) -/

/-- A configurable interaction rule. -/
structure Interaction where
  id : String
  displayName : String
  requiredTags : List String
  directions : List String
  eventType : String
  keyBinding : String
  properties : Props
deriving DecidableEq, Repr

/-- `Interaction.canInteractWith(entity)`. -/
def Interaction.canInteractWith (i : Interaction) (e : Ent) : Bool :=
  hasAllTags e i.requiredTags

/-- `Interaction.isValidDirection(direction)`. -/
def Interaction.isValidDirection (i : Interaction) (d : String) : Bool :=
  i.directions.contains d

/-- An event published on the scene's event bus, with the payload shape of
the emitting call site. -/
inductive Payload where
  | pickupP (player : PlayerEnt) (item : Ent)
  | pinteractP (player : PlayerEnt) (target : Ent) (direction : String)
  | pmoveP (player : PlayerEnt) (position : Pos) (direction : String)
  | interactionP (source : Ent) (target : Ent) (direction : String) (interaction : Interaction)
  | itemUseP (item : Ent) (user : PlayerEnt) (effectType : String)
deriving DecidableEq, Repr

/-- An emitted event record: type string plus payload. -/
structure ER where
  etype : String
  payload : Payload
deriving DecidableEq, Repr

/-- `Interaction.execute(source, target, direction)`: short-circuit on the
tag check, then the direction check; on success publish exactly one event
of the configured type with `{source, target, direction, interaction}` and
return `true`.  The body only reads `source`/`target`; the returned event
list is the complete set of side effects. -/
def Interaction.execute (i : Interaction) (source target : Ent) (direction : String) :
    Bool × List ER :=
  if !(i.canInteractWith target) then (false, [])
  else if !(i.isValidDirection direction) then (false, [])
  else (true, [⟨i.eventType, Payload.interactionP source target direction i⟩])

/-! ## Teleporter (src/js/interactions/interaction.js) -/

/-- The teleporter factory object. -/
structure Teleporter where
  sourceZone : String
  sourceX : Int
  sourceY : Int
  targetZone : String
  targetX : Int
  targetY : Int
  isActive : Bool
  properties : Props
deriving DecidableEq, Repr

/-- The argument object of `new Teleporter(config)`. -/
structure TeleporterConfig where
  sourceZone : Option String := none
  sourceX : Option Int := none
  sourceY : Option Int := none
  targetZone : Option String := none
  targetX : Option Int := none
  targetY : Option Int := none
  isActive : Option Bool := none
  properties : Option Props := none

/-- The `Teleporter` constructor: `config.f || default` for each field
(`'' || ''` and `0 || 0` coincide with `getD`, so the falsy cases collapse),
`isActive` defaulting to `true` only when absent. -/
def mkTeleporter (c : TeleporterConfig) : Teleporter :=
  { sourceZone := c.sourceZone.getD ""
    sourceX := c.sourceX.getD 0
    sourceY := c.sourceY.getD 0
    targetZone := c.targetZone.getD ""
    targetX := c.targetX.getD 0
    targetY := c.targetY.getD 0
    isActive := c.isActive.getD true
    properties := c.properties.getD [] }

/-- The teleporter tile constructed inside `Teleporter.placeInGrid`: a
`teleporter`-type tile whose properties carry the target coordinates (plus
`isActive` and the teleporter's own properties spread on top) and whose
config tags are `['teleporter', 'passable']`. -/
def Teleporter.tileFor (t : Teleporter) : Tile :=
  mkTile
    { x := t.sourceX, y := t.sourceY, type := "teleporter"
      properties :=
        objExtend
          (objInsert
            (objInsert
              (objInsert
                (objInsert emptyProps "targetZone" (Value.vStr t.targetZone))
                "targetX" (Value.vInt t.targetX))
              "targetY" (Value.vInt t.targetY))
            "isActive" (Value.vBool t.isActive))
          t.properties
      tags := ["teleporter", "passable"] }

/-- `Teleporter.placeInGrid(grid)`: bounds-check the source cell, then
overwrite it with the teleporter tile. -/
def Teleporter.placeInGrid (t : Teleporter) (grid : Grid) : Grid × Bool :=
  if !(grid.isInBounds t.sourceX t.sourceY) then (grid, false)
  else grid.setTileAt t.sourceX t.sourceY t.tileFor

/-- `Teleporter.createLinkedTeleporter(sourceGrid, targetGrid)`: place the
forward teleporter in the source grid, construct the return teleporter
with source and target swapped, place it in the target grid and return it.
The pair `(updated source grid, updated target grid, return teleporter)`
makes both grid mutations explicit. -/
def Teleporter.createLinkedTeleporter (t : Teleporter) (sourceGrid targetGrid : Grid) :
    Grid × Grid × Teleporter :=
  let sourceGrid1 := (t.placeInGrid sourceGrid).1
  let returnTeleporter := mkTeleporter
    { sourceZone := some t.targetZone
      sourceX := some t.targetX
      sourceY := some t.targetY
      targetZone := some t.sourceZone
      targetX := some t.sourceX
      targetY := some t.sourceY
      isActive := some t.isActive
      properties := some t.properties }
  let targetGrid1 := (returnTeleporter.placeInGrid targetGrid).1
  (sourceGrid1, targetGrid1, returnTeleporter)

/-! ## EventSystem (src/js/interactions/dialog.js) -/

/-- A subscriber callback: given the event data it either returns or
throws, modelled with `Except` (the thrown value is the error message). -/
abbrev Cb (δ : Type) : Type := δ → Except String Unit

/-- The event bus: `this.listeners`, a map from event-type string to the
ordered list of subscribed callbacks (the diagnostics-only circular log is
omitted). -/
structure EventSystem (δ : Type) where
  listeners : List (String × List (Cb δ))

/-- Lookup of `this.listeners[eventType]`. -/
def lookupCbs {δ : Type} (l : List (String × List (Cb δ))) (t : String) :
    Option (List (Cb δ)) :=
  (l.find? (fun kv => kv.1 == t)).map (fun kv => kv.2)

/-- Replace the callback list stored under the given key. -/
def assocUpdate {δ : Type} :
    List (String × List (Cb δ)) → String → (List (Cb δ) → List (Cb δ)) →
      List (String × List (Cb δ))
  | [], _, _ => []
  | (k, v) :: rest, key, f =>
    if k == key then (k, f v) :: rest else (k, v) :: assocUpdate rest key f

/-- `EventSystem.subscribe(eventType, callback)`: create the list when
absent, then push the callback at the end (subscription order).  The JS
method also returns an unsubscribe closure, not modelled here. -/
def subscribe {δ : Type} (es : EventSystem δ) (t : String) (cb : Cb δ) : EventSystem δ :=
  match lookupCbs es.listeners t with
  | none => ⟨es.listeners ++ [(t, [cb])]⟩
  | some _ => ⟨assocUpdate es.listeners t (fun cbs => cbs ++ [cb])⟩

/-- The callbacks currently registered for a type (empty when none). -/
def listenersFor {δ : Type} (es : EventSystem δ) (t : String) : List (Cb δ) :=
  (lookupCbs es.listeners t).getD []

/-- The observable outcome of one callback invocation: `none` for a normal
return, `some msg` for a thrown error (which `emit` catches and logs). -/
def cbOutcome (r : Except String Unit) : Option String :=
  match r with
  | .ok _ => none
  | .error e => some e

/-- The `forEach` loop of `emit` with its per-callback `try/catch`: every
callback is invoked in order; a thrown error is caught (logged to the
console in JS) and the loop continues with the next callback. -/
def runListeners {δ : Type} : List (Cb δ) → δ → List (Option String)
  | [], _ => []
  | cb :: rest, d => cbOutcome (cb d) :: runListeners rest d

/-- `EventSystem.emit(eventType, data)`: return immediately when no list
is registered, else run every current subscriber through the
`try/catch`-guarded loop.  The returned trace records, per subscriber in
subscription order, whether it returned normally or threw; `emit` itself
always returns normally (no exception propagates). -/
def emit {δ : Type} (es : EventSystem δ) (t : String) (d : δ) : List (Option String) :=
  match lookupCbs es.listeners t with
  | none => []
  | some cbs => runListeners cbs d

/-! ## Player interaction and item pickup
(src/unnamed/part_008 `Player`, src/js/entities/item.js `Item`,
src/unnamed/part_007 `NPC`, src/js/scenes/gameScene.js lookup/removal) -/

/-- A call to the scene's dialog façade, `scene.showDialog(options)`. -/
structure DialogCall where
  content : String
  speaker : String
  waitForInput : Bool
  duration : Option Int := none
deriving DecidableEq, Repr

/-- The scene state read and written by `Player.interact()`.  The player
object is held apart from the remaining entities because JS aliases it:
`addToInventory` mutates the same object the scene's entity list holds.
`Player.interact` never looks up the player's own cell (the front cell is
one step away), so searching `others` models `scene.getEntityAt` whenever
the player does not occupy the searched cell.  `events`, `dialogs` and
`zoneChanges` accumulate the calls made to the event bus, the dialog
façade and `scene.changeZone`. -/
structure PickupScene where
  grid : Grid
  player : PlayerEnt
  others : List Ent
  events : List ER
  dialogs : List DialogCall
  zoneChanges : List (String × Int × Int)
deriving Repr

/-- `scene.getEntityAt` restricted to the non-player entities (see
`PickupScene`): first entity at the cell in insertion order. -/
def findEntityAt (l : List Ent) (x y : Int) : Option Ent :=
  l.find? (fun e => e.position.x == x && e.position.y == y)

/-- `GameScene.removeEntity`: find the first entity with the given id and
splice it out; no match leaves the list unchanged. -/
def removeFirstById (l : List Ent) (id : String) : List Ent :=
  match l with
  | [] => []
  | e :: rest => if e.id = id then rest else e :: removeFirstById rest id

/-- `scene.showDialog(options)` — recorded as a call to the dialog façade. -/
def sceneShowDialog (s : PickupScene) (call : DialogCall) : PickupScene :=
  { s with dialogs := s.dialogs ++ [call] }

/-- `Player.addToInventory(item)`: push the item, then emit `item_pickup`
with `{player, item}` (the payload's player reference has the pushed item,
as in JS where the payload aliases the mutated player). -/
def addToInventory (s : PickupScene) (item : Ent) : PickupScene :=
  let player1 := { s.player with inventory := s.player.inventory ++ [item] }
  { s with
    player := player1
    events := s.events ++ [⟨"item_pickup", Payload.pickupP player1 item⟩] }

/-- `Item.onPickup(interactor)`: the interactor must be of player type and
have an inventory (the scene's player always does); push into the
inventory, optionally show the pickup dialog (a non-empty `dialogOnPickup`
is truthy), remove the item from the scene, report success. -/
def itemOnPickup (s : PickupScene) (item : Ent) : PickupScene × Bool :=
  if s.player.ent.type ≠ "player" then (s, false)
  else
    let s1 := addToInventory s item
    let s2 :=
      match item.dialogOnPickup with
      | some msg =>
          if msg = "" then s1
          else sceneShowDialog s1 ⟨msg, "", false, some 2000⟩
      | none => s1
    let s3 := { s2 with others := removeFirstById s2.others item.id }
    (s3, true)

/-- `Item.onUse(user)`: dispatch on the use-effect type — `heal` caps the
user's health at `maxHealth || 100`, `teleport` requests a zone change
(`scene.changeZone`), `dialog` shows content, and any other type is
re-emitted as an `item-use-<type>` event. -/
def itemOnUse (s : PickupScene) (item : Ent) : PickupScene × Bool :=
  match item.useEffect with
  | none => (s, false)
  | some ue =>
    if ue.type = "heal" then
      match s.player.ent.health, ue.amount with
      | some h, some amount =>
          let cap := jsOrInt (s.player.ent.maxHealth.getD 0) 100
          ({ s with player := { s.player with ent := { s.player.ent with health := some (min (h + amount) cap) } } }, true)
      | _, _ => (s, false)
    else if ue.type = "teleport" then
      match ue.targetZone, ue.targetX, ue.targetY with
      | some tz, some tx, some ty =>
          if tz = "" then (s, false)
          else ({ s with zoneChanges := s.zoneChanges ++ [(tz, tx, ty)] }, true)
      | _, _, _ => (s, false)
    else if ue.type = "dialog" then
      match ue.content with
      | some c =>
          if c = "" then (s, false)
          else
            (sceneShowDialog s
              ⟨c, jsOrStr (ue.speaker.getD "") item.displayName, ue.waitForInput.getD true, none⟩, true)
      | none => (s, false)
    else
      ({ s with events := s.events ++ [⟨"item-use-" ++ ue.type, Payload.itemUseP item s.player ue.type⟩] }, true)

/-- `Item.onInteract(interactor)`: player-only; pickup when pickupable,
else use when a use effect exists, else unhandled. -/
def itemOnInteract (s : PickupScene) (item : Ent) : PickupScene × Bool :=
  if s.player.ent.type ≠ "player" then (s, false)
  else if item.pickupable then itemOnPickup s item
  else
    match item.useEffect with
    | some _ => itemOnUse s item
    | none => (s, false)

/-- JS truthiness of `this.dialog` on an NPC (an empty string is falsy). -/
def npcDialogTruthy : NpcDialog → Bool
  | .str s => s ≠ ""
  | .obj _ _ => true

/-- `NPC.onInteract(interactor)`: player-only; show the dialog content
(string, or `text || 'Hello!'` with `speaker || displayName`), return true. -/
def npcOnInteract (s : PickupScene) (npc : Ent) : PickupScene × Bool :=
  if s.player.ent.type ≠ "player" then (s, false)
  else
    match npc.dialog with
    | some dlg =>
        if npcDialogTruthy dlg then
          let content :=
            match dlg with
            | .str str => str
            | .obj text _ => jsOrStr (text.getD "") "Hello!"
          let speaker :=
            match dlg with
            | .str _ => npc.displayName
            | .obj _ sp => jsOrStr (sp.getD "") npc.displayName
          (sceneShowDialog s ⟨content, speaker, true, none⟩, true)
        else (s, false)
    | none => (s, false)

/-- `entity.onInteract(this)` — virtual dispatch by the entity's class;
the `Entity` base (and unknown-type fallback) is a no-op returning false,
and `Player` does not override it. -/
def onInteractDispatch (s : PickupScene) (target : Ent) : PickupScene × Bool :=
  match target.kind with
  | .item => itemOnInteract s target
  | .npc => npcOnInteract s target
  | _ => (s, false)

/-- `Player.interact()`: look up the entity in the cell ahead, require it
interactable and reachable from the opposite of the player's facing
direction, dispatch `onInteract`, and on success emit `player_interact`
with `{player, target, direction}`. -/
def playerInteract (s : PickupScene) : PickupScene × Bool :=
  let frontPos := getPositionInFront s.player.ent
  match findEntityAt s.others frontPos.x frontPos.y with
  | none => (s, false)
  | some entity =>
    if entity.interactable then
      let interactDirection := getOppositeDirection s.player.ent.direction
      if canInteractFrom entity interactDirection then
        let r := onInteractDispatch s entity
        if r.2 then
          ({ r.1 with events := r.1.events ++
              [⟨"player_interact", Payload.pinteractP r.1.player entity r.1.player.ent.direction⟩] }, true)
        else (r.1, false)
      else (s, false)
    else (s, false)

/-! ## Concrete states used by counterexamples and witnesses -/

/-- A 1×1 all-grass grid whose default tile type is `grass`. -/
def g0cex : Grid := mkDefaultGrid 1 1 32 "grass"

/-- Zone data that changes only the default tile type, keeping dimensions. -/
def d0cex : GridData := { defaultTile := some "water" }

/-- A non-blocking NPC occupying cell (0,0). -/
def entA : Ent :=
  { id := "a", type := "npc", displayName := "A", position := ⟨0, 0⟩
    direction := "south", tags := [], interactable := false
    interactionDirections := directionValues, properties := [], kind := .npc }

/-- A blocking entity occupying the same cell (0,0), later in the list. -/
def entB : Ent := { entA with id := "b", tags := ["blocking"] }

/-- The entity attempting the move in the counterexample. -/
def moverC : Ent := { entA with id := "m" }

/-- Scene with a non-blocking entity before a blocking one at (0,0). -/
def cexScene : MoveScene := ⟨mkDefaultGrid 1 1 32 "grass", [entA, entB]⟩

/-- A 2×1 grid with grass at (0,0) and water at (1,0). -/
def gridC3 : Grid :=
  ⟨2, 1, 32, "grass",
    [[mkTile { x := 0, y := 0, type := "grass" }, mkTile { x := 1, y := 0, type := "water" }]]⟩

/-- The scenario player at (0,0) facing south. -/
def playerC3 : Ent :=
  { id := "p", type := "player", displayName := "Player", position := ⟨0, 0⟩
    direction := "south", tags := ["player", "character"], interactable := false
    interactionDirections := directionValues, properties := [], kind := .player }

/-- The scenario scene for the failed move east into water. -/
def sceneC3 : MoveScene := ⟨gridC3, [playerC3]⟩

/-! ## Helper lemmas -/

lemma defaultTiles_length (w h : Int) (dt : String) :
    (defaultTiles w h dt).length = h.toNat := by
  simp only [defaultTiles, List.length_map, List.length_range]

lemma defaultTiles_row_length (w h : Int) (dt : String) :
    ∀ row ∈ defaultTiles w h dt, row.length = w.toNat := by
  intro row hr
  simp only [defaultTiles, List.mem_map] at hr
  obtain ⟨y, _, rfl⟩ := hr
  simp only [List.length_map, List.length_range]

lemma mkDefaultGrid_WF (w h ts : Int) (dt : String) : (mkDefaultGrid w h ts dt).WF :=
  ⟨defaultTiles_length w h dt, defaultTiles_row_length w h dt⟩

lemma isInBounds_iff (g : Grid) (x y : Int) :
    g.isInBounds x y = true ↔ 0 ≤ x ∧ x < g.width ∧ 0 ≤ y ∧ y < g.height := by
  simp [Grid.isInBounds, Bool.and_eq_true, decide_eq_true_eq, and_assoc]

lemma getTileAt_isSome_iff (g : Grid) (x y : Int) (hwf : Grid.WF g) :
    (g.getTileAt x y).isSome = true ↔ g.isInBounds x y = true := by
  unfold Grid.getTileAt
  by_cases hb : g.isInBounds x y = true
  · obtain ⟨hx0, hxw, hy0, hyh⟩ := (isInBounds_iff g x y).mp hb
    have hy : y.toNat < g.tiles.length := by
      rw [hwf.1]; omega
    rw [if_pos hb, List.getElem?_eq_getElem hy]
    have hrow := hwf.2 _ (List.getElem_mem hy)
    have hx : x.toNat < (g.tiles[y.toNat]).length := by
      rw [hrow]; omega
    simp [List.getElem?_eq_getElem hx, hb]
  · simp [hb, if_neg hb]

lemma getTileAt_setTileAt_self (g : Grid) (x y : Int) (tile : Tile)
    (hwf : Grid.WF g) (hb : g.isInBounds x y = true) :
    (g.setTileAt x y tile).1.getTileAt x y = some tile := by
  obtain ⟨hx0, hxw, hy0, hyh⟩ := (isInBounds_iff g x y).mp hb
  have hy : y.toNat < g.tiles.length := by rw [hwf.1]; omega
  have hrow := hwf.2 _ (List.getElem_mem hy)
  have hx : x.toNat < (g.tiles[y.toNat]).length := by rw [hrow]; omega
  unfold Grid.setTileAt
  rw [if_pos hb, List.getElem?_eq_getElem hy]
  have hb2 : (({ g with
      tiles := g.tiles.set y.toNat ((g.tiles[y.toNat]).set x.toNat tile) } : Grid).isInBounds x y) = true := hb
  unfold Grid.getTileAt
  rw [if_pos hb2]
  have hy2 : y.toNat < (g.tiles.set y.toNat ((g.tiles[y.toNat]).set x.toNat tile)).length := by
    rw [List.length_set]; exact hy
  rw [List.getElem?_eq_getElem hy2]
  simp only [List.getElem_set_self, Option.some_bind]
  have hx2 : x.toNat < ((g.tiles[y.toNat]).set x.toNat tile).length := by
    rw [List.length_set]; exact hx
  rw [List.getElem?_eq_getElem hx2]
  simp [List.getElem_set_self]

/-! ## Claim theorems -/

/-- C8: for every grid of width `W` and height `H` and every integer pair
`(x, y)`, `isInBounds(x, y)` holds iff `0 ≤ x < W` and `0 ≤ y < H`, and
`getTileAt(x, y)` returns a tile exactly when `isInBounds(x, y)` is true
(absent for every out-of-bounds coordinate). -/
theorem isInBounds_getTileAt_spec (g : Grid) (x y : Int) (hwf : Grid.WF g) :
    (g.isInBounds x y = true ↔ 0 ≤ x ∧ x < g.width ∧ 0 ≤ y ∧ y < g.height) ∧
    ((g.getTileAt x y).isSome = true ↔ g.isInBounds x y = true) :=
  ⟨isInBounds_iff g x y, getTileAt_isSome_iff g x y hwf⟩

/-- Witness for C8 on a concrete 4×3 grid at (2, 1). -/
theorem isInBounds_getTileAt_spec_witness :
    ((mkDefaultGrid 4 3 32 "grass").isInBounds 2 1 = true ↔
      (0 : Int) ≤ 2 ∧ (2 : Int) < (mkDefaultGrid 4 3 32 "grass").width ∧
      (0 : Int) ≤ 1 ∧ (1 : Int) < (mkDefaultGrid 4 3 32 "grass").height) ∧
    (((mkDefaultGrid 4 3 32 "grass").getTileAt 2 1).isSome = true ↔
      (mkDefaultGrid 4 3 32 "grass").isInBounds 2 1 = true) :=
  isInBounds_getTileAt_spec (mkDefaultGrid 4 3 32 "grass") 2 1 (mkDefaultGrid_WF 4 3 32 "grass")

/-- C9: with a positive tile size, `worldToGrid` is a left inverse of
`gridToWorld` on all integral grid coordinates (`gridToWorld` multiplies
by the tile size, `worldToGrid` floor-divides by it). -/
theorem worldToGrid_gridToWorld_inverse (g : Grid) (x y : Int) (h : 0 < g.tileSize) :
    g.worldToGrid (g.gridToWorld x y).1 (g.gridToWorld x y).2 = (x, y) := by
  unfold Grid.worldToGrid Grid.gridToWorld
  have hne : g.tileSize ≠ 0 := by omega
  simp only [Int.mul_fdiv_cancel _ hne]

/-- Witness for C9 on a concrete grid with tile size 32, at (7, -5). -/
theorem worldToGrid_gridToWorld_inverse_witness :
    0 < (mkDefaultGrid 3 3 32 "grass").tileSize ∧
    (mkDefaultGrid 3 3 32 "grass").worldToGrid
      ((mkDefaultGrid 3 3 32 "grass").gridToWorld 7 (-5)).1
      ((mkDefaultGrid 3 3 32 "grass").gridToWorld 7 (-5)).2 = (7, -5) :=
  ⟨by decide, worldToGrid_gridToWorld_inverse (mkDefaultGrid 3 3 32 "grass") 7 (-5) (by decide)⟩

/-- C5: `Interaction.execute` returns `false` with no event when the
target's tags are not a superset of the required tags or the direction is
not allowed; when both checks pass it emits exactly one event of the
configured type with payload `{source, target, direction, interaction}`
and returns `true`; an empty required-tag set always passes the tag check.
The embedded `execute` only reads `source` and `target` and returns no
updated entity, mirroring that the JS body never writes to either. -/
theorem Interaction_execute_spec :
    ∀ (i : Interaction) (source target : Ent) (d : String),
      (i.execute source target d =
        (if i.canInteractWith target && i.isValidDirection d then
          (true, [⟨i.eventType, Payload.interactionP source target d i⟩])
        else (false, []))) ∧
      hasAllTags target [] = true := by
  intro i source target d
  refine ⟨?_, rfl⟩
  unfold Interaction.execute
  cases hc : i.canInteractWith target <;> cases hd : i.isValidDirection d <;> simp [hc, hd]

/-- The two-listener bus of the C6 scenario: the first subscriber throws. -/
def throwingCb : Cb Nat := fun _ => Except.error "boom"

/-- A subscriber that returns normally. -/
def okCb : Cb Nat := fun _ => Except.ok ()

/-- Both subscribed, throwing one first. -/
def esBoth : EventSystem Nat := subscribe (subscribe ⟨[]⟩ "evt" throwingCb) "evt" okCb

lemma runListeners_eq_map {δ : Type} (cbs : List (Cb δ)) (d : δ) :
    runListeners cbs d = cbs.map (fun cb => cbOutcome (cb d)) := by
  induction cbs with
  | nil => rfl
  | cons cb rest ih => simp [runListeners, ih]

lemma lookupCbs_append_single_of_none {δ : Type}
    (l : List (String × List (Cb δ))) (t : String) (cbs : List (Cb δ))
    (h : lookupCbs l t = none) :
    lookupCbs (l ++ [(t, cbs)]) t = some cbs := by
  induction l with
  | nil => simp [lookupCbs]
  | cons kv rest ih =>
    by_cases hk : kv.1 == t
    · exfalso
      simp [lookupCbs, List.find?_cons, hk] at h
    · simp only [lookupCbs, List.cons_append, List.find?_cons, hk] at h ⊢
      exact ih h

lemma lookupCbs_cons_self {δ : Type} (k : String) (v : List (Cb δ))
    (rest : List (String × List (Cb δ))) :
    lookupCbs ((k, v) :: rest) k = some v := by
  simp [lookupCbs, List.find?_cons_of_pos]

lemma lookupCbs_cons_ne {δ : Type} (k t : String) (v : List (Cb δ))
    (rest : List (String × List (Cb δ))) (h : k ≠ t) :
    lookupCbs ((k, v) :: rest) t = lookupCbs rest t := by
  have : ¬ (((k, v).1 == t) = true) := by simpa using h
  simp [lookupCbs, List.find?_cons_of_neg, this]

lemma lookupCbs_assocUpdate {δ : Type}
    (l : List (String × List (Cb δ))) (t : String) (v : List (Cb δ))
    (f : List (Cb δ) → List (Cb δ)) (h : lookupCbs l t = some v) :
    lookupCbs (assocUpdate l t f) t = some (f v) := by
  induction l with
  | nil => simp [lookupCbs] at h
  | cons kv rest ih =>
    obtain ⟨k, v1⟩ := kv
    by_cases hk : k = t
    · subst hk
      rw [lookupCbs_cons_self] at h
      have hv : v1 = v := by injection h
      subst hv
      simp only [assocUpdate, beq_self_eq_true, if_pos]
      exact lookupCbs_cons_self k (f v1) rest
    · have hb : ¬ ((k == t) = true) := by simpa using hk
      rw [lookupCbs_cons_ne k t v1 rest hk] at h
      simp only [assocUpdate, hb, Bool.false_eq_true, if_false]
      rw [lookupCbs_cons_ne k t v1 _ hk]
      exact ih h

lemma listenersFor_subscribe {δ : Type} (es : EventSystem δ) (t : String) (cb : Cb δ) :
    listenersFor (subscribe es t cb) t = listenersFor es t ++ [cb] := by
  unfold subscribe listenersFor
  cases h : lookupCbs es.listeners t with
  | none => simp [lookupCbs_append_single_of_none es.listeners t [cb] h]
  | some v => simp [lookupCbs_assocUpdate es.listeners t v _ h]

/-- C6: `emit` invokes every currently registered subscriber for the type
in subscription order (`subscribe` appends at the end), a subscriber
throwing does not prevent the remaining subscribers from running, and
`emit` always returns normally: its result is exactly the per-subscriber
outcome trace, one entry per subscriber.  In particular, with a throwing
first subscriber and a normal second one, the trace records the caught
error and then the second subscriber's normal return. -/
theorem emit_invokes_all_subscribers :
    (∀ (δ : Type) (es : EventSystem δ) (t : String) (d : δ),
      emit es t d = (listenersFor es t).map (fun cb => cbOutcome (cb d))) ∧
    (∀ (δ : Type) (es : EventSystem δ) (t : String) (cb : Cb δ),
      listenersFor (subscribe es t cb) t = listenersFor es t ++ [cb]) ∧
    emit esBoth "evt" 0 = [some "boom", none] := by
  refine ⟨?_, fun δ es t cb => listenersFor_subscribe es t cb, by rfl⟩
  intro δ es t d
  unfold emit listenersFor
  cases h : lookupCbs es.listeners t with
  | none => simp
  | some cbs => simp [runListeners_eq_map]

/-- C1 (amended): `canMoveTo(x,y)` is true iff (a) the target is in grid
bounds, (b) the tile returned for the target is passable for the entity,
and (c) the entity returned by `scene.getEntityAt(x,y)` — the *first*
entity at that cell in insertion order, if any — does not carry the
"blocking" tag.  Entities after the first at the cell are not consulted. -/
theorem canMoveTo_checks_first_entity_only (s : MoveScene) (e : Ent) (x y : Int) :
    canMoveTo s e x y = true ↔
      (s.grid.isInBounds x y = true ∧
       (∃ tile, s.grid.getTileAt x y = some tile ∧ canPassTile e tile = true) ∧
       (∀ b, getEntityAt s x y = some b → entHasTag b "blocking" = false)) := by
  unfold canMoveTo
  cases hb : s.grid.isInBounds x y with
  | false => simp [hb]
  | true =>
    cases ht : s.grid.getTileAt x y with
    | none => simp [ht]
    | some tile =>
      cases hp : canPassTile e tile with
      | false => simp [ht, hp]
      | true =>
        cases hbe : getEntityAt s x y with
        | none => simp [ht, hp, hbe]
        | some b =>
          cases hbt : entHasTag b "blocking" with
          | false => simp [ht, hp, hbe, hbt]
          | true => simp [ht, hp, hbe, hbt]

/-- C1 counterexample: in a scene whose entity list holds a non-blocking
entity before a blocking one on the same cell, `canMoveTo` returns true
even though an entity at the cell carries "blocking" — refuting the claim
that the check quantifies over every entity at the target cell. -/
theorem canMoveTo_blocking_second_entity_cex :
    ¬ (canMoveTo cexScene moverC 0 0 = true ↔
        (cexScene.grid.isInBounds 0 0 = true ∧
         (∃ tile, cexScene.grid.getTileAt 0 0 = some tile ∧ canPassTile moverC tile = true) ∧
         (∀ b ∈ cexScene.entities, b.position = ⟨0, 0⟩ → entHasTag b "blocking" = false))) := by
  intro h
  have hmove : canMoveTo cexScene moverC 0 0 = true := by decide
  have hall := (h.mp hmove).2.2 entB (by decide) (by decide)
  exact absurd hall (by decide)


/-- C3: `moveInDirection(d)` for a recognised direction sets the facing to
`d` unconditionally and, when the move fails, returns `false` with the
position unchanged; the one-step target follows the spec's fixed mapping
north (0,-1), east (1,0), south (0,1), west (-1,0), each equation below
showing the delegation `moveTo(position + delta)` after the facing is set.
The final conjunct is the spec scenario: a player at (0,0) moving east
into the blocking water tile at (1,0) gets `false`, stays at (0,0) and
ends facing east. -/
theorem moveInDirection_failed_move_frame (s : MoveScene) (e : Ent) (d : String)
    (hd : d ∈ directionValues) :
    ((moveInDirection s e d).1.direction = d) ∧
    ((moveInDirection s e d).2 = false → (moveInDirection s e d).1.position = e.position) ∧
    (moveInDirection s e "north" = moveTo s (setDirection e "north") e.position.x (e.position.y - 1)) ∧
    (moveInDirection s e "east" = moveTo s (setDirection e "east") (e.position.x + 1) e.position.y) ∧
    (moveInDirection s e "south" = moveTo s (setDirection e "south") e.position.x (e.position.y + 1)) ∧
    (moveInDirection s e "west" = moveTo s (setDirection e "west") (e.position.x - 1) e.position.y) ∧
    (moveInDirection sceneC3 playerC3 "east" = ({ playerC3 with direction := "east" }, false)) := by
  have hsetN : setDirection e "north" = { e with direction := "north" } := by
    unfold setDirection; rw [if_pos (by decide)]
  have hsetE : setDirection e "east" = { e with direction := "east" } := by
    unfold setDirection; rw [if_pos (by decide)]
  have hsetS : setDirection e "south" = { e with direction := "south" } := by
    unfold setDirection; rw [if_pos (by decide)]
  have hsetW : setDirection e "west" = { e with direction := "west" } := by
    unfold setDirection; rw [if_pos (by decide)]
  have hN : moveInDirection s e "north" = moveTo s (setDirection e "north") e.position.x (e.position.y - 1) := rfl
  have hE : moveInDirection s e "east" = moveTo s (setDirection e "east") (e.position.x + 1) e.position.y := rfl
  have hS : moveInDirection s e "south" = moveTo s (setDirection e "south") e.position.x (e.position.y + 1) := rfl
  have hW : moveInDirection s e "west" = moveTo s (setDirection e "west") (e.position.x - 1) e.position.y := rfl
  refine ⟨?_, ?_, hN, hE, hS, hW, by decide⟩ <;>
  · simp only [directionValues, List.mem_cons, List.not_mem_nil, or_false] at hd
    rcases hd with rfl | rfl | rfl | rfl
    · rw [hN, hsetN]; unfold moveTo; split <;> simp
    · rw [hE, hsetE]; unfold moveTo; split <;> simp
    · rw [hS, hsetS]; unfold moveTo; split <;> simp
    · rw [hW, hsetW]; unfold moveTo; split <;> simp

/-- Witness for C3: the scenario input — the player at (0,0) facing south,
grid with water at (1,0), moving east — discharges the hypothesis. -/
theorem moveInDirection_failed_move_frame_witness :
    "east" ∈ directionValues ∧
    ((moveInDirection sceneC3 playerC3 "east").1.direction = "east") :=
  ⟨by decide, (moveInDirection_failed_move_frame sceneC3 playerC3 "east" (by decide)).1⟩

/-- C10: for a direction string outside {north, east, south, west},
`moveInDirection` leaves both facing (`setDirection` rejects unrecognised
directions) and position unchanged, whatever boolean it returns: the
direction switch adds no delta, so the attempted target is the entity's
current cell. -/
theorem moveInDirection_invalid_direction_frame (s : MoveScene) (e : Ent) (d : String)
    (hd : d ∉ directionValues) :
    (moveInDirection s e d).1.direction = e.direction ∧
    (moveInDirection s e d).1.position = e.position := by
  have hset : setDirection e d = e := by
    unfold setDirection
    rw [if_neg]
    simp only [List.contains_iff_exists_mem_beq]
    rintro ⟨a, ha, hbeq⟩
    exact hd (by simpa [beq_iff_eq] using (beq_iff_eq.mp hbeq ▸ ha : d ∈ directionValues))
  have hd4 : ¬ (d = "north") ∧ ¬ (d = "east") ∧ ¬ (d = "south") ∧ ¬ (d = "west") := by
    simp only [directionValues, List.mem_cons, List.not_mem_nil, or_false] at hd
    tauto
  obtain ⟨h1, h2, h3, h4⟩ := hd4
  unfold moveInDirection
  rw [hset]
  simp only [h1, h2, h3, h4, if_false, ite_false]
  unfold moveTo
  split <;> simp

/-- Witness for C10: the unrecognised direction "up" on the scenario scene. -/
theorem moveInDirection_invalid_direction_frame_witness :
    "up" ∉ directionValues ∧
    ((moveInDirection sceneC3 playerC3 "up").1.direction = playerC3.direction ∧
     (moveInDirection sceneC3 playerC3 "up").1.position = playerC3.position) :=
  ⟨by decide, moveInDirection_invalid_direction_frame sceneC3 playerC3 "up" (by decide)⟩

/-- The forward teleporter of the C4 scenario, declared
(zoneA,5,5)→(zoneB,1,1) with constructor defaults for the rest. -/
def fwdTeleporterDecl (zoneA zoneB : String) : Teleporter :=
  mkTeleporter
    { sourceZone := some zoneA, sourceX := some 5, sourceY := some 5
      targetZone := some zoneB, targetX := some 1, targetY := some 1 }

/-- C4: `createLinkedTeleporter` produces a bidirectional pair.  For the
forward teleporter (zoneA,5,5)→(zoneB,1,1) and well-formed grids with the
two cells in bounds, the tile at (5,5) of the updated source grid is a
`teleporter` tile with properties targetZone = zoneB, targetX = 1,
targetY = 1, the tile at (1,1) of the updated target grid is a
`teleporter` tile with properties targetZone = zoneA, targetX = 5,
targetY = 5, and both tiles carry the tags "teleporter" and "passable". -/
theorem createLinkedTeleporter_bidirectional (gA gB : Grid) (zoneA zoneB : String)
    (hwfA : Grid.WF gA) (hwfB : Grid.WF gB)
    (hbA : gA.isInBounds 5 5 = true) (hbB : gB.isInBounds 1 1 = true) :
    ∃ tA tB,
      ((fwdTeleporterDecl zoneA zoneB).createLinkedTeleporter gA gB).1.getTileAt 5 5 = some tA ∧
      ((fwdTeleporterDecl zoneA zoneB).createLinkedTeleporter gA gB).2.1.getTileAt 1 1 = some tB ∧
      tA.type = "teleporter" ∧
      propLookup tA.properties "targetZone" = some (Value.vStr zoneB) ∧
      propLookup tA.properties "targetX" = some (Value.vInt 1) ∧
      propLookup tA.properties "targetY" = some (Value.vInt 1) ∧
      "teleporter" ∈ tA.tags ∧ "passable" ∈ tA.tags ∧
      tB.type = "teleporter" ∧
      propLookup tB.properties "targetZone" = some (Value.vStr zoneA) ∧
      propLookup tB.properties "targetX" = some (Value.vInt 5) ∧
      propLookup tB.properties "targetY" = some (Value.vInt 5) ∧
      "teleporter" ∈ tB.tags ∧ "passable" ∈ tB.tags := by
  have h1 : ((fwdTeleporterDecl zoneA zoneB).createLinkedTeleporter gA gB).1 =
      (gA.setTileAt 5 5 (fwdTeleporterDecl zoneA zoneB).tileFor).1 := by
    simp [Teleporter.createLinkedTeleporter, Teleporter.placeInGrid, fwdTeleporterDecl, mkTeleporter, hbA]
  have h2 : ((fwdTeleporterDecl zoneA zoneB).createLinkedTeleporter gA gB).2.1 =
      (gB.setTileAt 1 1 (Teleporter.mk zoneB 1 1 zoneA 5 5 true []).tileFor).1 := by
    simp [Teleporter.createLinkedTeleporter, Teleporter.placeInGrid, fwdTeleporterDecl, mkTeleporter, hbB]
  refine ⟨(fwdTeleporterDecl zoneA zoneB).tileFor, (Teleporter.mk zoneB 1 1 zoneA 5 5 true []).tileFor,
    ?_, ?_, rfl, rfl, rfl, rfl, ?_, ?_, rfl, rfl, rfl, rfl, ?_, ?_⟩
  · rw [h1]; exact getTileAt_setTileAt_self gA 5 5 _ hwfA hbA
  · rw [h2]; exact getTileAt_setTileAt_self gB 1 1 _ hwfB hbB
  · have h : (fwdTeleporterDecl zoneA zoneB).tileFor.tags =
        ["teleporter", "passable", "passable", "teleporter"] := rfl
    rw [h]; decide
  · have h : (fwdTeleporterDecl zoneA zoneB).tileFor.tags =
        ["teleporter", "passable", "passable", "teleporter"] := rfl
    rw [h]; decide
  · have h : (Teleporter.mk zoneB 1 1 zoneA 5 5 true []).tileFor.tags =
        ["teleporter", "passable", "passable", "teleporter"] := rfl
    rw [h]; decide
  · have h : (Teleporter.mk zoneB 1 1 zoneA 5 5 true []).tileFor.tags =
        ["teleporter", "passable", "passable", "teleporter"] := rfl
    rw [h]; decide

/-- Witness for C4 on concrete 6×6 and 2×2 grass grids and zones
"zoneA", "zoneB". -/
theorem createLinkedTeleporter_bidirectional_witness :
    Grid.WF (mkDefaultGrid 6 6 32 "grass") ∧ Grid.WF (mkDefaultGrid 2 2 32 "grass") ∧
    (mkDefaultGrid 6 6 32 "grass").isInBounds 5 5 = true ∧
    (mkDefaultGrid 2 2 32 "grass").isInBounds 1 1 = true ∧
    ∃ tA tB,
      ((fwdTeleporterDecl "zoneA" "zoneB").createLinkedTeleporter
        (mkDefaultGrid 6 6 32 "grass") (mkDefaultGrid 2 2 32 "grass")).1.getTileAt 5 5 = some tA ∧
      ((fwdTeleporterDecl "zoneA" "zoneB").createLinkedTeleporter
        (mkDefaultGrid 6 6 32 "grass") (mkDefaultGrid 2 2 32 "grass")).2.1.getTileAt 1 1 = some tB ∧
      tA.type = "teleporter" ∧
      propLookup tA.properties "targetZone" = some (Value.vStr "zoneB") ∧
      propLookup tA.properties "targetX" = some (Value.vInt 1) ∧
      propLookup tA.properties "targetY" = some (Value.vInt 1) ∧
      "teleporter" ∈ tA.tags ∧ "passable" ∈ tA.tags ∧
      tB.type = "teleporter" ∧
      propLookup tB.properties "targetZone" = some (Value.vStr "zoneA") ∧
      propLookup tB.properties "targetX" = some (Value.vInt 5) ∧
      propLookup tB.properties "targetY" = some (Value.vInt 5) ∧
      "teleporter" ∈ tB.tags ∧ "passable" ∈ tB.tags :=
  ⟨mkDefaultGrid_WF 6 6 32 "grass", mkDefaultGrid_WF 2 2 32 "grass", by decide, by decide,
    createLinkedTeleporter_bidirectional (mkDefaultGrid 6 6 32 "grass") (mkDefaultGrid 2 2 32 "grass")
      "zoneA" "zoneB" (mkDefaultGrid_WF 6 6 32 "grass") (mkDefaultGrid_WF 2 2 32 "grass")
      (by decide) (by decide)⟩

lemma setTileAt_eq_update (g : Grid) (x y : Int) (tile : Tile) :
    ∃ ts, (g.setTileAt x y tile).1 = { g with tiles := ts } := by
  unfold Grid.setTileAt
  split
  · split
    · exact ⟨_, rfl⟩
    · exact ⟨g.tiles, rfl⟩
  · exact ⟨g.tiles, rfl⟩

lemma applyTileDatum_eq_update (g : Grid) (td : TileData) :
    ∃ ts, g.applyTileDatum td = { g with tiles := ts } := by
  unfold Grid.applyTileDatum
  rcases td.x with _ | x <;> rcases td.y with _ | y <;> rcases td.type with _ | ty <;>
    first
      | exact ⟨g.tiles, rfl⟩
      | exact setTileAt_eq_update g _ _ _

lemma applyTileData_eq_update (tds : List TileData) (g : Grid) :
    ∃ ts, g.applyTileData tds = { g with tiles := ts } := by
  induction tds generalizing g with
  | nil => exact ⟨g.tiles, rfl⟩
  | cons td rest ih =>
    obtain ⟨ts1, h1⟩ := applyTileDatum_eq_update g td
    obtain ⟨ts2, h2⟩ := ih (g.applyTileDatum td)
    refine ⟨ts2, ?_⟩
    unfold Grid.applyTileData at h2 ⊢
    rw [List.foldl_cons, h2, h1]

lemma applyTileDataOpt_eq_update (o : Option (List TileData)) (g : Grid) :
    ∃ ts, g.applyTileDataOpt o = { g with tiles := ts } := by
  cases o with
  | none => exact ⟨g.tiles, rfl⟩
  | some tds => exact applyTileData_eq_update tds g

lemma defaultTiles_congr (w1 h1 w2 h2 : Int) (dt : String)
    (hh : h1.toNat = h2.toNat) (hw : h1.toNat = 0 ∨ w1.toNat = w2.toNat) :
    defaultTiles w1 h1 dt = defaultTiles w2 h2 dt := by
  unfold defaultTiles
  rcases hw with hz | hw
  · rw [hz] at hh
    rw [hz, ← hh]
    simp
  · simp only [hh, hw]

lemma defaultTiles_head?_succ (w h : Int) (dt : String) (n : Nat) (hn : h.toNat = n + 1) :
    ∃ row, (defaultTiles w h dt).head? = some row ∧ row.length = w.toNat := by
  unfold defaultTiles
  rw [hn, List.range_succ_eq_map, List.map_cons]
  exact ⟨_, rfl, by simp⟩

/-- `loadFromData` in closed form: the result applies the tile overrides to
a grid with the new dimensions and the *old* tiles only when no resize is
triggered; when the data's default tile agrees with the grid's current one
(the hypothesis), both reset paths produce the same all-default matrix. -/
lemma loadFromData_normal (g : Grid) (d : GridData)
    (hdt : d.defaultTile.getD g.defaultTileType = g.defaultTileType) :
    g.loadFromData d =
      Grid.applyTileDataOpt
        ⟨d.width.getD g.width, d.height.getD g.height, g.tileSize, g.defaultTileType,
          defaultTiles (d.width.getD g.width) (d.height.getD g.height) g.defaultTileType⟩
        d.tiles := by
  unfold Grid.loadFromData Grid.reset
  dsimp only
  rw [hdt]
  congr 1
  by_cases hcond : (Grid.mk (d.width.getD g.width) (d.height.getD g.height) g.tileSize
      g.defaultTileType (defaultTiles g.width g.height g.defaultTileType)).resizeNeeded = true
  · rw [if_pos hcond]
  · rw [if_neg hcond]
    have hcond' : (Grid.mk (d.width.getD g.width) (d.height.getD g.height) g.tileSize
        g.defaultTileType (defaultTiles g.width g.height g.defaultTileType)).resizeNeeded = false :=
      Bool.not_eq_true _ ▸ (Bool.eq_false_iff.mpr (fun h => hcond h))
    unfold Grid.resizeNeeded at hcond'
    rw [Bool.or_eq_false_iff] at hcond'
    obtain ⟨hlen, hrow⟩ := hcond'
    simp only [defaultTiles_length] at hlen
    have hlen' : (g.height.toNat : Int) = d.height.getD g.height := by
      simpa using hlen
    congr 1
    cases hn : g.height.toNat with
    | zero =>
      apply defaultTiles_congr
      · omega
      · exact Or.inl hn
    | succ n =>
      obtain ⟨row, hhead, hrl⟩ := defaultTiles_head?_succ g.width g.height g.defaultTileType n hn
      simp only [hhead] at hrow
      have hw : (g.width.toNat : Int) = d.width.getD g.width := by
        rw [hrl] at hrow
        simpa using hrow
      apply defaultTiles_congr
      · omega
      · exact Or.inr (by omega)

/-- C2 counterexample: on a 1×1 grass grid, loading data that only changes
`defaultTile` to "water" leaves the cell grass-typed after one call (the
reset runs before the new default is adopted and the unchanged dimensions
skip the second reset) but water-typed after the second call — so calling
`loadFromData` twice with identical data does not yield the same grid. -/
theorem loadFromData_not_idempotent_cex :
    ((g0cex.loadFromData d0cex).getTileAt 0 0).map Tile.type = some "grass" ∧
    (((g0cex.loadFromData d0cex).loadFromData d0cex).getTileAt 0 0).map Tile.type = some "water" := by
  constructor <;> decide

/-- C2 (amended): `loadFromData` is idempotent whenever the data's
`defaultTile` is absent or equal to the grid's current default tile type:
under that hypothesis the grid after two calls equals — in every field,
hence in every cell's type, tag set and property map — the grid after one
call.  (When the data changes the default tile while leaving the
dimensions unchanged, the first call keeps the old default in the
uncovered cells and the second call replaces them, as the counterexample
shows; this hypothesis is exactly what that failure forces.) -/
theorem loadFromData_idempotent_same_default (g : Grid) (d : GridData)
    (h : d.defaultTile = none ∨ d.defaultTile = some g.defaultTileType) :
    (g.loadFromData d).loadFromData d = g.loadFromData d := by
  have hdt : d.defaultTile.getD g.defaultTileType = g.defaultTileType := by
    rcases h with h | h <;> simp [h]
  have h1 := loadFromData_normal g d hdt
  obtain ⟨ts, hts⟩ := applyTileDataOpt_eq_update d.tiles
    (Grid.mk (d.width.getD g.width) (d.height.getD g.height) g.tileSize g.defaultTileType
      (defaultTiles (d.width.getD g.width) (d.height.getD g.height) g.defaultTileType))
  have hA : g.loadFromData d =
      Grid.mk (d.width.getD g.width) (d.height.getD g.height) g.tileSize g.defaultTileType ts := by
    rw [h1, hts]
  have hdt2 : d.defaultTile.getD (g.loadFromData d).defaultTileType =
      (g.loadFromData d).defaultTileType := by
    rw [hA]; exact hdt
  have hWidem : ∀ (o : Option Int) (a : Int), o.getD (o.getD a) = o.getD a := by
    intro o a; cases o <;> rfl
  have h2 := loadFromData_normal (g.loadFromData d) d hdt2
  rw [h2, hA]
  dsimp only
  rw [hWidem, hWidem, ← h1, hA]

/-- The idempotence witness data: no `defaultTile` override, one explicit
water tile on a 2×2 grid. -/
def dIdem : GridData :=
  { width := some 2, height := some 2,
    tiles := some [{ x := some 0, y := some 1, type := some "water" }] }

/-- Witness for the amended C2 on a 2×2 grass grid with `dIdem`. -/
theorem loadFromData_idempotent_same_default_witness :
    (dIdem.defaultTile = none ∨
      dIdem.defaultTile = some (mkDefaultGrid 2 2 32 "grass").defaultTileType) ∧
    ((mkDefaultGrid 2 2 32 "grass").loadFromData dIdem).loadFromData dIdem =
      (mkDefaultGrid 2 2 32 "grass").loadFromData dIdem :=
  ⟨Or.inl rfl,
    loadFromData_idempotent_same_default (mkDefaultGrid 2 2 32 "grass") dIdem (Or.inl rfl)⟩

lemma removeFirstById_id_not_mem (l : List Ent) (i : String)
    (hnd : (l.map Ent.id).Nodup) : ∀ e ∈ removeFirstById l i, e.id ≠ i := by
  induction l with
  | nil => simp [removeFirstById]
  | cons a rest ih =>
    simp only [List.map_cons, List.nodup_cons] at hnd
    obtain ⟨hna, hrest⟩ := hnd
    intro e he hei
    unfold removeFirstById at he
    by_cases ha : a.id = i
    · rw [if_pos ha] at he
      exact hna (by rw [ha, ← hei]; exact List.mem_map_of_mem Ent.id he)
    · rw [if_neg ha] at he
      rcases List.mem_cons.mp he with rfl | he'
      · exact ha hei
      · exact ih hrest e he' hei

lemma removeFirstById_length (l : List Ent) (e : Ent) (he : e ∈ l) :
    (removeFirstById l e.id).length + 1 = l.length := by
  induction l with
  | nil => cases he
  | cons a rest ih =>
    unfold removeFirstById
    by_cases ha : a.id = e.id
    · rw [if_pos ha]; simp
    · rw [if_neg ha]
      rcases List.mem_cons.mp he with rfl | he'
      · exact absurd rfl ha
      · simp [ih he']

/-- C7: when the entity ahead of the player is a pickupable, interactable
Item reachable from the approach direction (and entity ids are unique, as
the data model guarantees), a successful `Player.interact()` removes the
Item from the scene's entity collection (its id no longer occurs and the
collection shrinks by exactly one), appends the Item to the player's
inventory (length +1), and emits an `item_pickup` event. -/
theorem interact_pickup_effects (s : PickupScene) (ent : Ent)
    (hfind : findEntityAt s.others (getPositionInFront s.player.ent).x
      (getPositionInFront s.player.ent).y = some ent)
    (hkind : ent.kind = EKind.item)
    (hpick : ent.pickupable = true)
    (hint : ent.interactable = true)
    (hdir : ent.interactionDirections.contains (getOppositeDirection s.player.ent.direction) = true)
    (hptype : s.player.ent.type = "player")
    (hnodup : (s.others.map Ent.id).Nodup) :
    (playerInteract s).2 = true ∧
    (playerInteract s).1.player.inventory = s.player.inventory ++ [ent] ∧
    (playerInteract s).1.others = removeFirstById s.others ent.id ∧
    (∀ e ∈ (playerInteract s).1.others, e.id ≠ ent.id) ∧
    (playerInteract s).1.others.length + 1 = s.others.length ∧
    "item_pickup" ∈ (playerInteract s).1.events.map ER.etype := by
  have hci : canInteractFrom ent (getOppositeDirection s.player.ent.direction) = true := by
    unfold canInteractFrom
    rw [hint]
    simpa using hdir
  have hdisp : onInteractDispatch s ent = itemOnPickup s ent := by
    unfold onInteractDispatch itemOnInteract
    simp [hkind, hptype, hpick]
  have hpk : ∃ s3, itemOnPickup s ent = (s3, true) ∧
      s3.player.inventory = s.player.inventory ++ [ent] ∧
      s3.others = removeFirstById s.others ent.id ∧
      s3.events = s.events ++ [⟨"item_pickup",
        Payload.pickupP { s.player with inventory := s.player.inventory ++ [ent] } ent⟩] := by
    unfold itemOnPickup addToInventory sceneShowDialog
    simp only [hptype, ne_eq, not_true_eq_false, if_false, ite_false]
    cases hdlg : ent.dialogOnPickup with
    | none => exact ⟨_, rfl, rfl, rfl, rfl⟩
    | some msg =>
      by_cases hmsg : msg = ""
      · simp only [hmsg, if_pos rfl]
        exact ⟨_, rfl, rfl, rfl, rfl⟩
      · simp only [if_neg hmsg]
        exact ⟨_, rfl, rfl, rfl, rfl⟩
  obtain ⟨s3, hs3, hinv, hoth, hev⟩ := hpk
  have hrun : playerInteract s =
      ({ s3 with events := s3.events ++
          [⟨"player_interact", Payload.pinteractP s3.player ent s3.player.ent.direction⟩] }, true) := by
    unfold playerInteract
    simp only [hfind, hint, if_pos, hci, hdisp, hs3]
  rw [hrun]
  have hmem : ent ∈ s.others := List.mem_of_find?_eq_some hfind
  refine ⟨rfl, by simp [hinv], by simp [hoth], ?_, ?_, ?_⟩
  · intro e he
    rw [show ({ s3 with events := _ } : PickupScene).others = s3.others from rfl, hoth] at he
    exact removeFirstById_id_not_mem s.others ent.id hnodup e he
  · rw [show ({ s3 with events := _ } : PickupScene).others = s3.others from rfl, hoth]
    exact removeFirstById_length s.others ent hmem
  · simp [hev]

/-- The pickupable item of the C7 witness scenario, at (1,0), quantity 3. -/
def itemW : Ent :=
  { id := "itm", type := "item", displayName := "Item", position := ⟨1, 0⟩
    direction := "south", tags := ["item", "collectible"], interactable := true
    interactionDirections := directionValues, properties := [], kind := .item
    pickupable := true, quantity := 3 }

/-- The witness player at (1,1) facing north, empty inventory. -/
def playerW : PlayerEnt :=
  ⟨{ id := "p", type := "player", displayName := "Player", position := ⟨1, 1⟩
     direction := "north", tags := ["player", "character"], interactable := false
     interactionDirections := directionValues, properties := [], kind := .player }, []⟩

/-- The witness scene: the item sits in the cell the player faces. -/
def sceneW : PickupScene := ⟨mkDefaultGrid 3 3 32 "grass", playerW, [itemW], [], [], []⟩

/-- Witness for C7 on the concrete scene: every hypothesis is discharged
by evaluation. -/
theorem interact_pickup_effects_witness :
    findEntityAt sceneW.others (getPositionInFront sceneW.player.ent).x
      (getPositionInFront sceneW.player.ent).y = some itemW ∧
    ((playerInteract sceneW).2 = true ∧
     (playerInteract sceneW).1.player.inventory = sceneW.player.inventory ++ [itemW] ∧
     (playerInteract sceneW).1.others = removeFirstById sceneW.others itemW.id ∧
     (∀ e ∈ (playerInteract sceneW).1.others, e.id ≠ itemW.id) ∧
     (playerInteract sceneW).1.others.length + 1 = sceneW.others.length ∧
     "item_pickup" ∈ (playerInteract sceneW).1.events.map ER.etype) :=
  ⟨by decide,
    interact_pickup_effects sceneW itemW (by decide) (by decide) (by decide) (by decide)
      (by decide) (by decide) (by decide)⟩
